import Mathlib

/-!
Shallow embedding of the GreenStream AI backend (Python sources under
src/backend) for checking its natural-language specification: severity
classification, risk and health scoring, anomaly tagging, the in-memory
data store with its bounded buffers, the alert query endpoints, the
stream-processor loop, and the AI-insight fallback. Python ints are
modelled as ℤ, Python floats as ℚ (exact rational arithmetic; IEEE-754
rounding noise is out of scope of this model), Python dicts keyed by city
as functions from String, and Python lists as Lean lists.
-/

namespace GreenStream

/-- From src/backend/pathway_transformations.py,
EnvironmentalAnomalyDetector.classify_aqi_severity. -/
def classify_aqi_severity (aqi : ℤ) : String :=
  if aqi ≥ 200 then "critical"
  else if aqi ≥ 100 then "warning"
  else "normal"

/-- From src/backend/pathway_transformations.py,
EnvironmentalAnomalyDetector.classify_co2_severity. -/
def classify_co2_severity (co2 : ℤ) : String :=
  if co2 ≥ 600 then "critical"
  else if co2 ≥ 500 then "warning"
  else "normal"

/-- From src/backend/pathway_transformations.py, the inner get_severity of
PathwayTransformationPipeline.apply_overall_severity: the more severe of the
AQI-derived and CO2-derived severities. -/
def get_severity (aqi_sev co2_sev : String) : String :=
  if aqi_sev = "critical" ∨ co2_sev = "critical" then "critical"
  else if aqi_sev = "warning" ∨ co2_sev = "warning" then "warning"
  else "normal"

/-- The overall severity computed by the Pathway transformation pipeline:
get_severity applied to the two single-metric classifications. -/
def overallSeverity (aqi co2 : ℤ) : String :=
  get_severity (classify_aqi_severity aqi) (classify_co2_severity co2)

/-- From src/backend/pathway_api_integration.py,
PathwayStreamProcessor._classify_severity (note the strict comparisons). -/
def classifySeverity (aqi co2 : ℤ) : String :=
  if aqi > 200 ∨ co2 > 600 then "critical"
  else if aqi > 100 ∨ co2 > 500 then "warning"
  else "normal"

/-- From src/backend/pipeline.py, process_data: the severity attached to the
alert the legacy pipeline emits, `none` when no alert is emitted at all
(CO2_THRESHOLD = 600, AQI_THRESHOLD = 100; the critical test uses the
1.2-scaled thresholds 720 and 120, both exact in floating point). -/
def pipelineAlertSeverity (co2 aqi : ℤ) : Option String :=
  if co2 > 600 ∨ aqi > 100 then
    some (if co2 > 720 ∨ aqi > 120 then "critical" else "warning")
  else none

/-- Helper: the transformation-pipeline classifier is characterised by the
inclusive thresholds. -/
theorem overallSeverity_spec (aqi co2 : ℤ) :
    (overallSeverity aqi co2 = "critical" ↔ (aqi ≥ 200 ∨ co2 ≥ 600)) ∧
    (overallSeverity aqi co2 = "warning" ↔
      ((100 ≤ aqi ∧ aqi < 200 ∧ co2 < 600) ∨ (500 ≤ co2 ∧ co2 < 600 ∧ aqi < 200))) ∧
    (overallSeverity aqi co2 = "normal" ↔ (aqi < 100 ∧ co2 < 500)) := by
  unfold overallSeverity get_severity classify_aqi_severity classify_co2_severity
  split_ifs <;> simp_all <;> omega

/-- Helper: the stream processor's classifier is characterised by strict
thresholds. -/
theorem classifySeverity_spec (aqi co2 : ℤ) :
    (classifySeverity aqi co2 = "critical" ↔ (aqi > 200 ∨ co2 > 600)) ∧
    (classifySeverity aqi co2 = "warning" ↔
      ((100 < aqi ∧ aqi ≤ 200 ∧ co2 ≤ 600) ∨ (500 < co2 ∧ co2 ≤ 600 ∧ aqi ≤ 200))) ∧
    (classifySeverity aqi co2 = "normal" ↔ (aqi ≤ 100 ∧ co2 ≤ 500)) := by
  unfold classifySeverity
  split_ifs <;> simp_all <;> omega

/-- Helper: the legacy pipeline's alert severity characterisation. -/
theorem pipelineAlertSeverity_spec (co2 aqi : ℤ) :
    (pipelineAlertSeverity co2 aqi = some "critical" ↔
      ((co2 > 600 ∨ aqi > 100) ∧ (co2 > 720 ∨ aqi > 120))) ∧
    (pipelineAlertSeverity co2 aqi = some "warning" ↔
      ((co2 > 600 ∨ aqi > 100) ∧ co2 ≤ 720 ∧ aqi ≤ 120)) ∧
    (pipelineAlertSeverity co2 aqi = none ↔ (co2 ≤ 600 ∧ aqi ≤ 100)) := by
  unfold pipelineAlertSeverity
  split_ifs <;> simp_all <;> omega

/-- Python round(x, 2) modelled on exact rationals: round x*100 to the
nearest integer and divide back (tie behaviour is irrelevant to every
statement below, since both sides of each equation round identically). -/
def round2 (x : ℚ) : ℚ := (round (x * 100) : ℤ) / 100

/-- From src/backend/pathway_transformations.py,
EnvironmentalAnomalyDetector.compute_risk_score: 40% AQI, 40% CO2, 20%
temperature penalty, rounded to 2 decimals. -/
def compute_risk_score (aqi co2 : ℤ) (temperature : ℚ) : ℚ :=
  let aqi_score : ℚ := min 100 (max 0 ((aqi : ℚ) / 500 * 100))
  let co2_score : ℚ := min 100 (max 0 (((co2 : ℚ) - 400) / 400 * 100))
  let temp_score : ℚ :=
    if temperature > 35 then min 100 ((temperature - 35) * 5)
    else if temperature < 10 then min 100 ((10 - temperature) * 3)
    else 0
  round2 (aqi_score * (0.4 : ℚ) + co2_score * (0.4 : ℚ) + temp_score * (0.2 : ℚ))

/-- From src/backend/pathway_api_integration.py,
PathwayStreamProcessor._compute_risk_score: same AQI/CO2 terms, but the
temperature term is 100 only above 45 degrees and the result is not
rounded. -/
def computeRiskScoreProc (aqi co2 : ℤ) (temperature : ℚ) : ℚ :=
  let aqi_score : ℚ := min 100 (max 0 ((aqi : ℚ) / 500 * 100))
  let co2_score : ℚ := min 100 (max 0 (((co2 : ℚ) - 400) / 400 * 100))
  let temp_score : ℚ := if temperature > 45 then 100 else 0
  aqi_score * (0.4 : ℚ) + co2_score * (0.4 : ℚ) + temp_score * (0.2 : ℚ)

/-- The risk-score formula exactly as claim C2 words it: weighted clamped
AQI and CO2 terms plus a temperature penalty that is 100 above 45 degrees,
min(100,(t-35)*5) above 35, min(100,(10-t)*3) below 10, with the final
result clamped to [0,100] and rounded to 2 decimals. -/
def riskSpecC2 (aqi co2 : ℤ) (t : ℚ) : ℚ :=
  let temp_penalty : ℚ :=
    if t > 45 then 100
    else if t > 35 then min 100 ((t - 35) * 5)
    else if t < 10 then min 100 ((10 - t) * 3)
    else 0
  round2 (min 100 (max 0
    ((0.4 : ℚ) * min 100 (max 0 ((aqi : ℚ) / 500 * 100)) +
     (0.4 : ℚ) * min 100 (max 0 (((co2 : ℚ) - 400) / 400 * 100)) +
     (0.2 : ℚ) * temp_penalty)))

/-- The amended formula for compute_risk_score: identical to riskSpecC2
except that the temperature penalty has no separate branch above 45
degrees (the scaled min(100,(t-35)*5) branch covers all t > 35). -/
def riskSpecAmended (aqi co2 : ℤ) (t : ℚ) : ℚ :=
  let temp_penalty : ℚ :=
    if t > 35 then min 100 ((t - 35) * 5)
    else if t < 10 then min 100 ((10 - t) * 3)
    else 0
  round2 (min 100 (max 0
    ((0.4 : ℚ) * min 100 (max 0 ((aqi : ℚ) / 500 * 100)) +
     (0.4 : ℚ) * min 100 (max 0 (((co2 : ℚ) - 400) / 400 * 100)) +
     (0.2 : ℚ) * temp_penalty)))

/-- Helper: a clamped metric term lies in [0, 100]. -/
theorem clamp_term_bounds (x : ℚ) :
    0 ≤ min 100 (max 0 x) ∧ min 100 (max 0 x) ≤ 100 :=
  ⟨le_min (by norm_num) (le_max_left 0 x), min_le_left _ _⟩

/-- Helper: the transformation-layer temperature penalty lies in [0, 100]. -/
theorem temp_score_bounds (t : ℚ) :
    0 ≤ (if t > 35 then min 100 ((t - 35) * 5)
         else if t < 10 then min 100 ((10 - t) * 3) else 0) ∧
    (if t > 35 then min 100 ((t - 35) * 5)
     else if t < 10 then min 100 ((10 - t) * 3) else 0) ≤ 100 := by
  split_ifs with h1 h2
  · exact ⟨le_min (by norm_num) (by nlinarith), min_le_left _ _⟩
  · exact ⟨le_min (by norm_num) (by nlinarith), min_le_left _ _⟩
  · exact ⟨le_refl 0, by norm_num⟩

/-- Helper: round2 maps [0, 100] into [0, 100]. -/
theorem round2_bounds (x : ℚ) (h0 : 0 ≤ x) (h1 : x ≤ 100) :
    0 ≤ round2 x ∧ round2 x ≤ 100 := by
  unfold round2
  rw [round_eq]
  have hf0 : (0 : ℤ) ≤ ⌊x * 100 + 1 / 2⌋ := Int.floor_nonneg.mpr (by linarith)
  have hf1 : ⌊x * 100 + 1 / 2⌋ < 10001 := by
    rw [Int.floor_lt]
    push_cast
    linarith
  constructor
  · exact div_nonneg (by exact_mod_cast hf0) (by norm_num)
  · rw [div_le_iff₀ (by norm_num)]
    have : ⌊x * 100 + 1 / 2⌋ ≤ 10000 := by omega
    calc (⌊x * 100 + 1 / 2⌋ : ℚ) ≤ 10000 := by exact_mod_cast this
    _ ≤ 100 * 100 := by norm_num

/-- Helper: the transformation-layer risk score equals the amended formula
and lies in [0, 100] (so the spec's outer clamp is vacuous on it). -/
theorem compute_risk_score_spec (aqi co2 : ℤ) (t : ℚ) :
    compute_risk_score aqi co2 t = riskSpecAmended aqi co2 t ∧
    0 ≤ compute_risk_score aqi co2 t ∧ compute_risk_score aqi co2 t ≤ 100 := by
  have ha := clamp_term_bounds ((aqi : ℚ) / 500 * 100)
  have hb := clamp_term_bounds (((co2 : ℚ) - 400) / 400 * 100)
  have hc := temp_score_bounds t
  unfold compute_risk_score riskSpecAmended
  dsimp only
  have hsum0 : 0 ≤ min 100 (max 0 ((aqi : ℚ) / 500 * 100)) * (0.4 : ℚ) +
      min 100 (max 0 (((co2 : ℚ) - 400) / 400 * 100)) * (0.4 : ℚ) +
      (if t > 35 then min 100 ((t - 35) * 5)
       else if t < 10 then min 100 ((10 - t) * 3) else 0) * (0.2 : ℚ) := by
    nlinarith [ha.1, hb.1, hc.1]
  have hsum1 : min 100 (max 0 ((aqi : ℚ) / 500 * 100)) * (0.4 : ℚ) +
      min 100 (max 0 (((co2 : ℚ) - 400) / 400 * 100)) * (0.4 : ℚ) +
      (if t > 35 then min 100 ((t - 35) * 5)
       else if t < 10 then min 100 ((10 - t) * 3) else 0) * (0.2 : ℚ) ≤ 100 := by
    nlinarith [ha.2, hb.2, hc.2]
  refine ⟨?_, round2_bounds _ hsum0 hsum1⟩
  set A := min 100 (max 0 ((aqi : ℚ) / 500 * 100)) with hA
  set B := min 100 (max 0 (((co2 : ℚ) - 400) / 400 * 100)) with hB
  set C := (if t > 35 then min 100 ((t - 35) * 5)
            else if t < 10 then min 100 ((10 - t) * 3) else 0) with hC
  congr 1
  have e : (0.4 : ℚ) * A + (0.4 : ℚ) * B + (0.2 : ℚ) * C =
      A * (0.4 : ℚ) + B * (0.4 : ℚ) + C * (0.2 : ℚ) := by ring
  rw [e, max_eq_right hsum0, min_eq_right hsum1]

/-- Helper: the stream-processor risk score lies in [0, 100] and adds no
temperature contribution at or below 45 degrees. -/
theorem computeRiskScoreProc_bounds (aqi co2 : ℤ) (t : ℚ) :
    0 ≤ computeRiskScoreProc aqi co2 t ∧ computeRiskScoreProc aqi co2 t ≤ 100 := by
  have ha := clamp_term_bounds ((aqi : ℚ) / 500 * 100)
  have hb := clamp_term_bounds (((co2 : ℚ) - 400) / 400 * 100)
  unfold computeRiskScoreProc
  dsimp only
  split_ifs <;> constructor <;> nlinarith [ha.1, ha.2, hb.1, hb.2]

/-- C1 counterexample: at aqi = 200, co2 = 0 the stream processor's
classifier (strict thresholds) returns "warning", while the claim demands
"critical" whenever aqi ≥ 200. -/
theorem C1_cex :
    ¬ (classifySeverity 200 0 = "critical" ↔ ((200 : ℤ) ≥ 200 ∨ (0 : ℤ) ≥ 600)) := by
  norm_num [classifySeverity]
  decide

/-- C1 (amended): the transformation-pipeline classifier obeys exactly the
claimed inclusive thresholds; the stream processor's _classify_severity
uses strict thresholds (critical iff aqi > 200 or co2 > 600, warning iff
not critical and (aqi > 100 or co2 > 500), normal otherwise); the legacy
pipeline labels an alert critical iff (co2 > 600 or aqi > 100) and
(co2 > 720 or aqi > 120), warning iff an alert fires below those scaled
thresholds, and emits no alert iff co2 ≤ 600 and aqi ≤ 100. -/
theorem C1_severity_characterisation (aqi co2 : ℤ) :
    ((overallSeverity aqi co2 = "critical" ↔ (aqi ≥ 200 ∨ co2 ≥ 600)) ∧
     (overallSeverity aqi co2 = "warning" ↔
       ((100 ≤ aqi ∧ aqi < 200 ∧ co2 < 600) ∨ (500 ≤ co2 ∧ co2 < 600 ∧ aqi < 200))) ∧
     (overallSeverity aqi co2 = "normal" ↔ (aqi < 100 ∧ co2 < 500))) ∧
    ((classifySeverity aqi co2 = "critical" ↔ (aqi > 200 ∨ co2 > 600)) ∧
     (classifySeverity aqi co2 = "warning" ↔
       ((100 < aqi ∧ aqi ≤ 200 ∧ co2 ≤ 600) ∨ (500 < co2 ∧ co2 ≤ 600 ∧ aqi ≤ 200))) ∧
     (classifySeverity aqi co2 = "normal" ↔ (aqi ≤ 100 ∧ co2 ≤ 500))) ∧
    ((pipelineAlertSeverity co2 aqi = some "critical" ↔
       ((co2 > 600 ∨ aqi > 100) ∧ (co2 > 720 ∨ aqi > 120))) ∧
     (pipelineAlertSeverity co2 aqi = some "warning" ↔
       ((co2 > 600 ∨ aqi > 100) ∧ co2 ≤ 720 ∧ aqi ≤ 120)) ∧
     (pipelineAlertSeverity co2 aqi = none ↔ (co2 ≤ 600 ∧ aqi ≤ 100))) :=
  ⟨overallSeverity_spec aqi co2, classifySeverity_spec aqi co2,
   pipelineAlertSeverity_spec co2 aqi⟩

/-- C2 counterexample: at temperature 46 the transformation-layer risk
score uses the scaled penalty min(100, (46-35)*5) = 55 where the claim's
formula demands the flat penalty 100 (11 ≠ 20 after weighting), and at
temperature 40 the stream processor's risk score adds no temperature
penalty where the claim's formula demands min(100, (40-35)*5) = 25
(0 ≠ 5 after weighting). -/
theorem C2_cex :
    compute_risk_score 0 400 46 ≠ riskSpecC2 0 400 46 ∧
    computeRiskScoreProc 0 400 40 ≠ riskSpecC2 0 400 40 := by
  constructor
  · norm_num [compute_risk_score, riskSpecC2, round2, round_eq]
  · norm_num [computeRiskScoreProc, riskSpecC2, round2, round_eq]

/-- C2 (amended): the transformation-layer compute_risk_score equals the
claimed formula with the temperature penalty read as min(100,(t-35)*5) for
all t > 35 (no separate flat-100 band above 45), min(100,(10-t)*3) below
10, else 0; its value always lies in [0,100], so the claimed final clamp
is vacuous; the stream processor's _compute_risk_score (flat penalty 100
above 45 degrees, no rounding) also lies in [0,100]; and both give the
Delhi reading {aqi 250, co2 620, temperature 30} risk score exactly 42. -/
theorem C2_risk_score (aqi co2 : ℤ) (t : ℚ) :
    (compute_risk_score aqi co2 t = riskSpecAmended aqi co2 t ∧
     0 ≤ compute_risk_score aqi co2 t ∧ compute_risk_score aqi co2 t ≤ 100) ∧
    (0 ≤ computeRiskScoreProc aqi co2 t ∧ computeRiskScoreProc aqi co2 t ≤ 100) ∧
    compute_risk_score 250 620 30 = 42 ∧
    computeRiskScoreProc 250 620 30 = 42 := by
  refine ⟨compute_risk_score_spec aqi co2 t, computeRiskScoreProc_bounds aqi co2 t, ?_, ?_⟩
  · norm_num [compute_risk_score, round2, round_eq]
  · norm_num [computeRiskScoreProc]

/-- From src/backend/pathway_api_integration.py,
PathwayStreamProcessor._get_anomaly_type: the `anomalies` list built by the
three append statements, in program order. The reading's humidity field is
never consulted by this function. -/
def anomalyTagList (aqi co2 : ℤ) (temperature : ℚ) : List String :=
  (if aqi > 200 then ["high_aqi"] else []) ++
  (if co2 > 600 then ["high_co2"] else []) ++
  (if temperature > 45 then ["extreme_heat"] else [])

/-- From src/backend/pathway_api_integration.py,
PathwayStreamProcessor._get_anomaly_type: the comma-joined tag string,
"normal" when no tag matched. -/
def getAnomalyTypeProc (aqi co2 : ℤ) (temperature : ℚ) : String :=
  if anomalyTagList aqi co2 temperature = [] then "normal"
  else String.intercalate "," (anomalyTagList aqi co2 temperature)

/-- From src/backend/pathway_transformations.py,
EnvironmentalAnomalyDetector.get_anomaly_type: an if/elif chain returning
only the first matching tag. -/
def get_anomaly_type (aqi co2 : ℤ) (temperature : ℚ) (humidity : ℤ) : String :=
  if aqi > 200 then "high_aqi"
  else if co2 > 600 then "high_co2"
  else if temperature > 45 then "extreme_heat"
  else if humidity > 80 then "high_humidity"
  else "normal"

/-- One stored reading record: the dict the stream processor builds (raw
generator fields plus the derived classification fields). -/
structure StoredReading where
  city : String
  aqi : ℤ
  co2 : ℤ
  temperature : ℚ
  humidity : ℤ
  risk_score : ℚ
  health_score : ℚ
  severity : String
  anomaly_type : String
  timestamp : String
  deriving DecidableEq, Repr

/-- From src/backend/pathway_api_integration.py, PathwayDataStore: city-keyed
dicts are modelled as functions from String, lists as Lean lists, and the
defaultdict(list) as a function defaulting to []. The lock only serialises
accesses; the sequential model keeps each operation atomic by construction. -/
structure DataStore where
  latest_readings : String → Option StoredReading
  alerts_buffer : List StoredReading
  health_scores : String → Option ℚ
  risk_scores : String → Option ℚ
  anomaly_history : String → List String

/-- The store PathwayDataStore.__init__ builds: everything empty. -/
def emptyStore : DataStore :=
  ⟨fun _ => none, [], fun _ => none, fun _ => none, fun _ => []⟩

/-- The append-then-pop(0) pattern shared by add_alert (capacity 100) and
add_anomaly (capacity 50): append, then evict the single oldest element
when the buffer has grown past the capacity. -/
def pushBounded (cap : ℕ) (buf : List α) (a : α) : List α :=
  if (buf ++ [a]).length > cap then (buf ++ [a]).drop 1 else buf ++ [a]

/-- From src/backend/pathway_api_integration.py,
PathwayDataStore.update_reading: overwrite the city's latest reading with
the incoming record carrying a store-assigned timestamp `now`, and mirror
its health and risk scores (the record type is fixed-shape, so the
"if key in data" guards are always taken). -/
def update_reading (s : DataStore) (city : String) (data : StoredReading)
    (now : String) : DataStore :=
  { s with
    latest_readings := fun c =>
      if c = city then some { data with timestamp := now } else s.latest_readings c,
    health_scores := fun c =>
      if c = city then some data.health_score else s.health_scores c,
    risk_scores := fun c =>
      if c = city then some data.risk_score else s.risk_scores c }

/-- From src/backend/pathway_api_integration.py, PathwayDataStore.add_alert. -/
def add_alert (s : DataStore) (alert : StoredReading) : DataStore :=
  { s with alerts_buffer := pushBounded 100 s.alerts_buffer alert }

/-- From src/backend/pathway_api_integration.py, PathwayDataStore.add_anomaly. -/
def add_anomaly (s : DataStore) (city : String) (tag : String) : DataStore :=
  { s with anomaly_history := fun c =>
      if c = city then pushBounded 50 (s.anomaly_history city) tag
      else s.anomaly_history c }

/-- From src/backend/pathway_api_integration.py,
PathwayDataStore.get_city_reading. -/
def get_city_reading (s : DataStore) (city : String) : Option StoredReading :=
  s.latest_readings city

/-- Python l[-limit:] for a nonnegative limit: the whole list when the
limit is 0 (l[0:] is l), else the last `limit` elements. -/
def pyLastSlice (l : List α) (limit : ℕ) : List α :=
  if limit = 0 then l else l.drop (l.length - limit)

/-- From src/backend/pathway_api_integration.py,
PathwayDataStore.get_critical_alerts: filter to severity critical, then
take the trailing slice. -/
def get_critical_alerts (s : DataStore) (limit : ℕ) : List StoredReading :=
  pyLastSlice (s.alerts_buffer.filter (fun a => a.severity = "critical")) limit

/-- From src/backend/pathway_api_integration.py,
PathwayDataStore.get_warnings: filter to severity warning, then take the
trailing slice. -/
def get_warnings (s : DataStore) (limit : ℕ) : List StoredReading :=
  pyLastSlice (s.alerts_buffer.filter (fun a => a.severity = "warning")) limit

/-- From src/backend/api.py, the /api/alerts route (the "any" filter,
default limit 50): it delegates to get_critical_alerts, falling back to
the legacy pipeline's unfiltered alert list only when that comes back
empty. -/
def apiGetAlerts (s : DataStore) (legacy : List StoredReading)
    (limit : ℕ) : List StoredReading :=
  if get_critical_alerts s limit = [] then pyLastSlice legacy limit
  else get_critical_alerts s limit

/-- Helper: folding the bounded push over any input list keeps exactly the
trailing `cap` elements of initial contents plus inputs, in order. -/
theorem foldl_pushBounded (cap : ℕ) :
    ∀ (xs buf : List α), buf.length ≤ cap →
      xs.foldl (pushBounded cap) buf = (buf ++ xs).drop (buf.length + xs.length - cap) := by
  intro xs
  induction xs with
  | nil =>
    intro buf h
    simp [Nat.sub_eq_zero_of_le h]
  | cons a xs ih =>
    intro buf h
    rw [List.foldl_cons]
    by_cases hc : buf.length + 1 > cap
    · have hbl : buf.length = cap := by omega
      have hpb : pushBounded cap buf a = (buf ++ [a]).drop 1 := by
        unfold pushBounded
        rw [if_pos]
        simp
        omega
      have hlen : ((buf ++ [a]).drop 1).length = cap := by
        simp
        omega
      rw [hpb, ih _ (le_of_eq hlen), hlen]
      have h1 : (1 : ℕ) ≤ (buf ++ [a]).length := by simp
      rw [← List.drop_append_of_le_length h1, List.drop_drop]
      have e1 : buf ++ [a] ++ xs = buf ++ a :: xs := by
        rw [List.append_assoc, List.singleton_append]
      have e2 : cap + xs.length - cap = xs.length := by omega
      have e3 : buf.length + (a :: xs).length - cap = 1 + xs.length := by
        simp
        omega
      rw [e1, e2, e3]
    · have hpb : pushBounded cap buf a = buf ++ [a] := by
        unfold pushBounded
        rw [if_neg]
        simp
        omega
      have hlen : (buf ++ [a]).length ≤ cap := by
        simp
        omega
      rw [hpb, ih _ hlen]
      have e1 : buf ++ [a] ++ xs = buf ++ a :: xs := by
        rw [List.append_assoc, List.singleton_append]
      have e2 : (buf ++ [a]).length + xs.length - cap
          = buf.length + (a :: xs).length - cap := by
        simp
        omega
      rw [e1, e2]

/-- Helper: add_alert only touches the alerts buffer, through pushBounded. -/
theorem foldl_add_alert (xs : List StoredReading) (s : DataStore) :
    (xs.foldl add_alert s).alerts_buffer
      = xs.foldl (pushBounded 100) s.alerts_buffer := by
  induction xs generalizing s with
  | nil => rfl
  | cons a xs ih => rw [List.foldl_cons, List.foldl_cons, ih]; rfl

/-- Helper: add_anomaly only touches the named city's history, through
pushBounded. -/
theorem foldl_add_anomaly (tags : List String) (city : String) (s : DataStore) :
    ((tags.foldl (fun t tag => add_anomaly t city tag) s).anomaly_history) city
      = tags.foldl (pushBounded 50) (s.anomaly_history city) := by
  induction tags generalizing s with
  | nil => rfl
  | cons a tags ih =>
    rw [List.foldl_cons, List.foldl_cons, ih]
    simp [add_anomaly]

/-- C3: starting from the empty store, inserting any sequence of alerts
leaves exactly the trailing 100 of them in insertion order (so the buffer
never exceeds 100), and inserting any sequence of anomaly tags for a city
leaves exactly the trailing 50 of them in insertion order (never more than
50); the oldest element is evicted on each overflow. -/
theorem C3_bounded_fifo_buffers (xs : List StoredReading)
    (city : String) (tags : List String) :
    (xs.foldl add_alert emptyStore).alerts_buffer = xs.drop (xs.length - 100) ∧
    (xs.foldl add_alert emptyStore).alerts_buffer.length ≤ 100 ∧
    ((tags.foldl (fun t tag => add_anomaly t city tag) emptyStore).anomaly_history) city
      = tags.drop (tags.length - 50) ∧
    (((tags.foldl (fun t tag => add_anomaly t city tag) emptyStore).anomaly_history) city).length
      ≤ 50 := by
  have h1 : (xs.foldl add_alert emptyStore).alerts_buffer = xs.drop (xs.length - 100) := by
    rw [foldl_add_alert]
    have := foldl_pushBounded 100 xs ([] : List StoredReading) (by simp)
    simpa using this
  have h2 : ((tags.foldl (fun t tag => add_anomaly t city tag) emptyStore).anomaly_history) city
      = tags.drop (tags.length - 50) := by
    rw [foldl_add_anomaly]
    have := foldl_pushBounded 50 tags ([] : List String) (by simp)
    simpa [emptyStore] using this
  refine ⟨h1, ?_, h2, ?_⟩
  · rw [h1]
    simp
    omega
  · rw [h2]
    simp
    omega

/-- C4 counterexample: the store assigns its own ingestion timestamp on
update, so after updating Delhi with a record whose producer timestamp is
"09:00" at store time "09:05", get_city_reading returns that record with
timestamp "09:05" — not exactly the record that was passed in. -/
theorem C4_cex :
    get_city_reading
      (update_reading
        (update_reading emptyStore "Delhi"
          ⟨"Delhi", 180, 520, 31, 55, 30, 70, "warning", "normal", "08:00"⟩ "08:05")
        "Delhi"
        ⟨"Delhi", 250, 620, 30, 50, 42, 58, "critical", "high_aqi,high_co2", "09:00"⟩ "09:05")
      "Delhi"
      ≠ some ⟨"Delhi", 250, 620, 30, 50, 42, 58, "critical", "high_aqi,high_co2", "09:00"⟩ := by
  simp [get_city_reading, update_reading]

/-- C4 (amended): after update_reading(city, R1) then update_reading(city,
R2), get_city_reading(city) returns exactly R2 with its timestamp replaced
by the store-assigned ingestion timestamp of the second update; no trace
of R1 remains anywhere in latest_readings (nor in the mirrored health and
risk score maps): the resulting maps are identical to those of a store
that only ever saw R2. -/
theorem C4_last_write_wins (s : DataStore) (city : String)
    (r1 r2 : StoredReading) (t1 t2 : String) :
    get_city_reading (update_reading (update_reading s city r1 t1) city r2 t2) city
      = some { r2 with timestamp := t2 } ∧
    (update_reading (update_reading s city r1 t1) city r2 t2).latest_readings
      = (update_reading s city r2 t2).latest_readings ∧
    (update_reading (update_reading s city r1 t1) city r2 t2).health_scores
      = (update_reading s city r2 t2).health_scores ∧
    (update_reading (update_reading s city r1 t1) city r2 t2).risk_scores
      = (update_reading s city r2 t2).risk_scores := by
  refine ⟨by simp [get_city_reading, update_reading], ?_, ?_, ?_⟩ <;>
    · funext c
      simp only [update_reading]
      split_ifs <;> rfl

/-- C6 counterexample: at humidity 90 (all other metrics normal) the
stream processor tags the reading "normal" — it never emits high_humidity —
and at aqi 250, co2 650 the transformation-layer detector returns only the
single first-matching tag "high_aqi", not the full set. -/
theorem C6_cex :
    (anomalyTagList 50 400 30 = [] ∧ getAnomalyTypeProc 50 400 30 = "normal" ∧
      ((90 : ℤ) > 80)) ∧
    get_anomaly_type 250 650 30 60 = "high_aqi" := by
  refine ⟨⟨?_, ?_, by norm_num⟩, ?_⟩
  · norm_num [anomalyTagList]
  · norm_num [getAnomalyTypeProc, anomalyTagList]
  · norm_num [get_anomaly_type]

/-- C6 (amended): the stream processor's tag list contains high_aqi iff
aqi > 200, high_co2 iff co2 > 600, extreme_heat iff temperature > 45, in
that order, and never contains high_humidity (humidity is not consulted);
the joined result is "normal" exactly when no tag matched. The
transformation-layer get_anomaly_type instead returns only the first
matching tag in the priority order high_aqi, high_co2, extreme_heat,
high_humidity, so high_humidity is reported only when nothing above it
matched. -/
theorem C6_anomaly_tags (aqi co2 humidity : ℤ) (t : ℚ) :
    ("high_aqi" ∈ anomalyTagList aqi co2 t ↔ aqi > 200) ∧
    ("high_co2" ∈ anomalyTagList aqi co2 t ↔ co2 > 600) ∧
    ("extreme_heat" ∈ anomalyTagList aqi co2 t ↔ t > 45) ∧
    "high_humidity" ∉ anomalyTagList aqi co2 t ∧
    (getAnomalyTypeProc aqi co2 t = "normal" ↔ anomalyTagList aqi co2 t = []) ∧
    (get_anomaly_type aqi co2 t humidity = "high_humidity" ↔
      (humidity > 80 ∧ aqi ≤ 200 ∧ co2 ≤ 600 ∧ t ≤ 45)) ∧
    (get_anomaly_type aqi co2 t humidity = "high_aqi" ↔ aqi > 200) := by
  simp only [getAnomalyTypeProc, anomalyTagList, get_anomaly_type]
  split_ifs <;> simp_all <;> first | omega | linarith | decide

/-- A concrete warning-severity alert record used to exercise the alert
queries. -/
def warningAlert : StoredReading :=
  ⟨"Mumbai", 150, 520, 30, 60, 24, 76, "warning", "normal", "10:00"⟩

/-- C5: with a single warning alert in the store and no legacy alerts, the
/api/alerts route (the "any" filter) returns the empty list, because it
delegates to get_critical_alerts despite its docstring "Get all alerts";
the warning query does return the alert. Evaluates the code at the failing
input of the code_bug verdict. -/
theorem C5_any_filter_drops_warnings :
    (add_alert emptyStore warningAlert).alerts_buffer = [warningAlert] ∧
    warningAlert.severity = "warning" ∧
    apiGetAlerts (add_alert emptyStore warningAlert) [] 50 = [] ∧
    get_warnings (add_alert emptyStore warningAlert) 30 = [warningAlert] := by
  refine ⟨?_, rfl, ?_, ?_⟩ <;>
    simp [add_alert, emptyStore, pushBounded, apiGetAlerts, get_critical_alerts,
      get_warnings, pyLastSlice, warningAlert]

/-- Python int() applied to a float: truncation toward zero, on exact
rationals. -/
def pyInt (q : ℚ) : ℤ := if 0 ≤ q then ⌊q⌋ else -⌊-q⌋

/-- From src/backend/pathway_transformations.py, the inner
compute_health_score of apply_health_metrics: max(0, min(100,
int(100 - risk))). -/
def compute_health_score (risk : ℚ) : ℤ :=
  max 0 (min 100 (pyInt (100 - risk)))

/-- From src/backend/pathway_api_integration.py,
continuous_update_from_generator: health_score = 100 - risk_score on the
serving path. -/
def healthScoreProc (aqi co2 : ℤ) (t : ℚ) : ℚ :=
  100 - computeRiskScoreProc aqi co2 t

/-- C7: on the serving path health + risk is exactly 100 and health equals
clamp(100 - risk, 0, 100) (the clamp is vacuous because risk lies in
[0,100]); on the transformation path compute_health_score truncates
100 - risk to an integer and clamps, so health + risk is 100 within
rounding: 0 ≤ 100 - (health + risk) < 1. -/
theorem C7_health_risk_complement (aqi co2 : ℤ) (t : ℚ) :
    (healthScoreProc aqi co2 t + computeRiskScoreProc aqi co2 t = 100) ∧
    (healthScoreProc aqi co2 t
      = min 100 (max 0 (100 - computeRiskScoreProc aqi co2 t))) ∧
    (0 ≤ 100 - ((compute_health_score (compute_risk_score aqi co2 t) : ℚ)
        + compute_risk_score aqi co2 t) ∧
     100 - ((compute_health_score (compute_risk_score aqi co2 t) : ℚ)
        + compute_risk_score aqi co2 t) < 1) := by
  obtain ⟨hp0, hp1⟩ := computeRiskScoreProc_bounds aqi co2 t
  obtain ⟨-, ht0, ht1⟩ := compute_risk_score_spec aqi co2 t
  refine ⟨by unfold healthScoreProc; ring, ?_, ?_, ?_⟩
  · unfold healthScoreProc
    rw [max_eq_right (by linarith), min_eq_right (by linarith)]
  · have hfl : (compute_health_score (compute_risk_score aqi co2 t) : ℚ)
        ≤ 100 - compute_risk_score aqi co2 t := by
      unfold compute_health_score pyInt
      rw [if_pos (by linarith)]
      have h1 : (⌊100 - compute_risk_score aqi co2 t⌋ : ℚ)
          ≤ 100 - compute_risk_score aqi co2 t := Int.floor_le _
      have h2 : (0 : ℤ) ≤ ⌊100 - compute_risk_score aqi co2 t⌋ :=
        Int.floor_nonneg.mpr (by linarith)
      have h3 : max 0 (min 100 ⌊100 - compute_risk_score aqi co2 t⌋)
          ≤ ⌊100 - compute_risk_score aqi co2 t⌋ := by omega
      calc (↑(max 0 (min 100 ⌊100 - compute_risk_score aqi co2 t⌋)) : ℚ)
          ≤ (⌊100 - compute_risk_score aqi co2 t⌋ : ℚ) := by exact_mod_cast h3
        _ ≤ _ := h1
    linarith
  · have hfl : 100 - compute_risk_score aqi co2 t - 1
        < (compute_health_score (compute_risk_score aqi co2 t) : ℚ) := by
      unfold compute_health_score pyInt
      rw [if_pos (by linarith)]
      have h1 : 100 - compute_risk_score aqi co2 t
          < (⌊100 - compute_risk_score aqi co2 t⌋ : ℚ) + 1 := Int.lt_floor_add_one _
      have h2 : (0 : ℤ) ≤ ⌊100 - compute_risk_score aqi co2 t⌋ :=
        Int.floor_nonneg.mpr (by linarith)
      have h25 : ⌊100 - compute_risk_score aqi co2 t⌋ ≤ 100 := by
        have := Int.floor_le_floor (α := ℚ) (le_of_sub_nonneg (by linarith) :
          (100 - compute_risk_score aqi co2 t) ≤ 100)
        simpa using this
      have h3 : max 0 (min 100 ⌊100 - compute_risk_score aqi co2 t⌋)
          = ⌊100 - compute_risk_score aqi co2 t⌋ := by omega
      rw [h3]
      linarith
    linarith

/-- Python s[:n] on a string, by characters. -/
def pyTruncate (s : String) (n : ℕ) : String := String.mk (s.data.take n)

/-- From src/backend/api.py, get_insights except-branch: the deterministic
fallback explanation selected by AQI band. -/
def fallbackExplanation (aqi : ℤ) : String :=
  if aqi > 300 then "CRITICAL: AQI " ++ toString aqi ++ " indicates hazardous air quality."
  else if aqi > 200 then "Poor air quality (AQI " ++ toString aqi ++ "). CO2 levels are elevated."
  else "Moderate pollution detected (AQI " ++ toString aqi ++ ")."

/-- From src/backend/api.py, get_insights except-branch: the deterministic
fallback recommendation selected by AQI band. -/
def fallbackRecommendation (aqi : ℤ) : String :=
  if aqi > 300 then "Stay indoors, close windows, and use air purifiers."
  else if aqi > 200 then "Limit outdoor activities and wear protective masks."
  else "Monitor air quality conditions."

/-- The AIInsight response model of src/backend/api.py. -/
structure AIInsight where
  alert : StoredReading
  explanation : String
  recommendation : String
  severity_level : String
  deriving DecidableEq, Repr

/-- From src/backend/api.py, get_insights for a city whose reading was
found: `gemini` is the parsed enrichment outcome, `none` when the service
is unconfigured (gemini_model is None raises RuntimeError) or the call or
parse raises — every such failure lands in the except-branch fallback;
both returned strings pass through the final [:250] slices, and no error
outcome exists on this path. -/
def get_insights (reading : StoredReading)
    (gemini : Option (String × String)) : AIInsight :=
  match gemini with
  | some er =>
    { alert := reading
      explanation := pyTruncate er.1 250
      recommendation := pyTruncate er.2 250
      severity_level := reading.severity }
  | none =>
    { alert := reading
      explanation := pyTruncate (fallbackExplanation reading.aqi) 250
      recommendation := pyTruncate (fallbackRecommendation reading.aqi) 250
      severity_level := reading.severity }

/-- Helper: a Python slice s[:n] never exceeds n characters. -/
theorem pyTruncate_length (s : String) (n : ℕ) : (pyTruncate s n).length ≤ n := by
  have h : (pyTruncate s n).length = (s.data.take n).length := rfl
  rw [h]
  exact List.length_take_le n s.data

/-- C9: whenever enrichment is unconfigured or raises, the insight
response is still an AIInsight record (never an error on this path by
construction), its explanation and recommendation are the deterministic
fallback templates selected by the AQI band (over 300 the hazard copy,
over 200 the poor-quality copy, otherwise the moderate copy), and both
returned strings are at most 250 characters. -/
theorem C9_insight_fallback (r : StoredReading) :
    (get_insights r none).explanation.length ≤ 250 ∧
    (get_insights r none).recommendation.length ≤ 250 ∧
    (get_insights r none).explanation
      = pyTruncate
          (if r.aqi > 300 then
            "CRITICAL: AQI " ++ toString r.aqi ++ " indicates hazardous air quality."
          else if r.aqi > 200 then
            "Poor air quality (AQI " ++ toString r.aqi ++ "). CO2 levels are elevated."
          else "Moderate pollution detected (AQI " ++ toString r.aqi ++ ").") 250 ∧
    (get_insights r none).recommendation
      = (if r.aqi > 300 then "Stay indoors, close windows, and use air purifiers."
         else if r.aqi > 200 then "Limit outdoor activities and wear protective masks."
         else "Monitor air quality conditions.") ∧
    (get_insights r none).severity_level = r.severity := by
  refine ⟨pyTruncate_length _ _, pyTruncate_length _ _, rfl, ?_, rfl⟩
  show pyTruncate (fallbackRecommendation r.aqi) 250 = _
  unfold fallbackRecommendation
  split_ifs <;> decide

/-- A raw reading as EnvironmentalDataGenerator.generate_reading yields
it (its city field always equals the requested city). -/
structure RawReading where
  city : String
  aqi : ℤ
  co2 : ℤ
  temperature : ℚ
  humidity : ℤ
  timestamp : String
  deriving DecidableEq, Repr

/-- From src/backend/pathway_api_integration.py,
continuous_update_from_generator: the derived fields merged into the raw
reading before it is written to the store. -/
def enrichReading (r : RawReading) : StoredReading :=
  { city := r.city
    aqi := r.aqi
    co2 := r.co2
    temperature := r.temperature
    humidity := r.humidity
    risk_score := computeRiskScoreProc r.aqi r.co2 r.temperature
    health_score := 100 - computeRiskScoreProc r.aqi r.co2 r.temperature
    severity := classifySeverity r.aqi r.co2
    anomaly_type := getAnomalyTypeProc r.aqi r.co2 r.temperature
    timestamp := r.timestamp }

/-- The per-city loop body of continuous_update_from_generator: enrich,
write to the store (store clock `now`), and record alert and anomaly when
the severity is critical or warning. -/
def processCity (s : DataStore) (r : RawReading) (now : String) : DataStore :=
  let e := enrichReading r
  let s1 := update_reading s r.city e now
  if e.severity = "critical" ∨ e.severity = "warning" then
    add_anomaly (add_alert s1 e) r.city e.anomaly_type
  else s1

/-- The fixed city set of continuous_update_from_generator. -/
def cities : List String := ["Delhi", "Mumbai", "Chennai", "Bangalore"]

/-- The for-loop over cities inside the try block: a fetch failure raises
out of the loop, abandoning the remaining cities of this tick but keeping
every update already applied (the store left of the failure point). -/
def tickGo (fetch : String → Except String RawReading) (now : String) :
    List String → DataStore → DataStore
  | [], s => s
  | c :: rest, s =>
    match fetch c with
    | Except.error _ => s
    | Except.ok r => tickGo fetch now rest (processCity s r now)

/-- One tick of the while-True loop: the try block over the fixed city
list; the except branch catches any failure, so a tick always yields a
store and the loop sleeps the same interval either way. -/
def runTick (fetch : String → Except String RawReading) (now : String)
    (s : DataStore) : DataStore :=
  tickGo fetch now cities s

/-- n ticks of the while-True loop, tick i fetching through fetchAt i at
store clock nowAt i: total for every schedule of fetch outcomes, so the
processor never terminates on a reading error. -/
def runLoop (fetchAt : ℕ → String → Except String RawReading)
    (nowAt : ℕ → String) : ℕ → DataStore → DataStore
  | 0, s => s
  | n + 1, s =>
    runLoop (fun i => fetchAt (i + 1)) (fun i => nowAt (i + 1)) n
      (runTick (fetchAt 0) (nowAt 0) s)

/-- A benign raw reading for a given city. -/
def okReading (c : String) : RawReading := ⟨c, 50, 400, 30, 50, "10:00"⟩

/-- A fetch schedule in which only Delhi (the first city of the tick)
fails. -/
def fetchDelhiFails (c : String) : Except String RawReading :=
  if c = "Delhi" then Except.error "generator unavailable" else Except.ok (okReading c)

/-- Helper: inside one tick, a failing city aborts the loop exactly at the
failure point: the tick result is the fold over the successful prefix. -/
theorem tickGo_error_stops (fetch : String → Except String RawReading)
    (now : String) (c : String) (e : String) (post : List String)
    (herr : fetch c = Except.error e) :
    ∀ (pre : List String) (s : DataStore),
      (∀ c2 ∈ pre, ∃ r, fetch c2 = Except.ok r) →
      tickGo fetch now (pre ++ c :: post) s = tickGo fetch now pre s := by
  intro pre
  induction pre with
  | nil =>
    intro s _
    simp [tickGo, herr]
  | cons p pre ih =>
    intro s hok
    obtain ⟨r, hr⟩ := hok p (by simp)
    rw [List.cons_append]
    show tickGo fetch now (p :: (pre ++ c :: post)) s = _
    rw [tickGo, tickGo, hr]
    exact ih _ (fun c2 hc2 => hok c2 (by simp [hc2]))

/-- C10 counterexample: when fetching Delhi (the first city of the tick)
fails, the whole remainder of that tick is skipped: Mumbai's fetch would
have succeeded, yet after the tick the store still has no reading for
Mumbai. -/
theorem C10_cex :
    (runTick fetchDelhiFails "10:00" emptyStore).latest_readings "Mumbai" = none ∧
    fetchDelhiFails "Mumbai" = Except.ok (okReading "Mumbai") := by
  constructor
  · rfl
  · rfl

/-- C10 (amended): within one tick, a failure fetching one city aborts the
remainder of the tick — cities before the failing one in the fixed order
keep their updates, cities from the failing one onward are skipped — and
the loop itself always proceeds: after any tick (failed or not) the
processor sleeps the same interval and runs the next tick, never
terminating on a reading error (each n-tick run is total and steps one
tick at a time). -/
theorem C10_tick_failure_semantics (fetch : String → Except String RawReading)
    (now : String) (s : DataStore) (pre : List String) (c : String)
    (post : List String) (e : String)
    (hsplit : cities = pre ++ c :: post)
    (hok : ∀ c2 ∈ pre, ∃ r, fetch c2 = Except.ok r)
    (herr : fetch c = Except.error e) :
    runTick fetch now s = tickGo fetch now pre s ∧
    ∀ (fetchAt : ℕ → String → Except String RawReading) (nowAt : ℕ → String)
      (n : ℕ) (t : DataStore),
      runLoop fetchAt nowAt (n + 1) t
        = runLoop (fun i => fetchAt (i + 1)) (fun i => nowAt (i + 1)) n
            (runTick (fetchAt 0) (nowAt 0) t) := by
  constructor
  · rw [runTick, hsplit]
    exact tickGo_error_stops fetch now c e post herr pre s hok
  · intro fetchAt nowAt n t
    rfl

/-- C10 witness: the amended theorem applied to the schedule in which the
first city fails, with the empty successful prefix. -/
theorem C10_witness :
    runTick fetchDelhiFails "10:00" emptyStore
      = tickGo fetchDelhiFails "10:00" [] emptyStore ∧
    ∀ (fetchAt : ℕ → String → Except String RawReading) (nowAt : ℕ → String)
      (n : ℕ) (t : DataStore),
      runLoop fetchAt nowAt (n + 1) t
        = runLoop (fun i => fetchAt (i + 1)) (fun i => nowAt (i + 1)) n
            (runTick (fetchAt 0) (nowAt 0) t) :=
  C10_tick_failure_semantics fetchDelhiFails "10:00" emptyStore []
    "Delhi" ["Mumbai", "Chennai", "Bangalore"] "generator unavailable"
    rfl (by simp) rfl

/-- A heap of Python dict objects: reading records indexed by address.
Models the reference sharing that dict(self.latest_readings) preserves. -/
def Heap : Type := ℕ → StoredReading

/-- Mutating the record object stored at address a (e.g. assigning to a
key of a per-city reading dict reached through any alias). -/
def heapWrite (h : Heap) (a : ℕ) (r : StoredReading) : Heap :=
  fun a2 => if a2 = a then r else h a2

/-- latest_readings as Python holds it: city keys bound to references to
record objects in the heap. -/
def RefMap : Type := List (String × ℕ)

/-- Dict key lookup on the reference map. -/
def lookupRef (m : RefMap) (city : String) : Option ℕ :=
  match m with
  | [] => none
  | (k, a) :: rest => if k = city then some a else lookupRef rest city

/-- From src/backend/pathway_api_integration.py,
PathwayDataStore.get_all_readings: dict(self.latest_readings) — a new
container holding the same key-to-reference bindings (a shallow copy; the
per-city record objects themselves are shared, not copied). -/
def get_all_readings (m : RefMap) : RefMap := m

/-- Reading one city through the store dereferences the shared heap. -/
def readCity (h : Heap) (m : RefMap) (city : String) : Option StoredReading :=
  (lookupRef m city).map h

/-- The store state of the C8 counterexample: one Delhi reading at
address 0. -/
def c8Store : RefMap := [("Delhi", 0)]

/-- The original Delhi record of the C8 counterexample. -/
def c8Rec : StoredReading :=
  ⟨"Delhi", 100, 450, 30, 50, 13, 87, "normal", "normal", "10:00"⟩

/-- The heap of the C8 counterexample: every address holds c8Rec. -/
def c8Heap : Heap := fun _ => c8Rec

/-- C8 counterexample: get_all_readings returns a shallow copy, so the
caller can reach the per-city record at the shared address through the
returned map; mutating that record (here: setting aqi to 999) changes what
the store returns on a subsequent read — the claim's "same values as if
no mutation had happened" fails. -/
theorem C8_cex :
    lookupRef (get_all_readings c8Store) "Delhi" = some 0 ∧
    readCity (heapWrite c8Heap 0 { c8Rec with aqi := 999 }) c8Store "Delhi"
      ≠ readCity c8Heap c8Store "Delhi" := by
  constructor
  · rfl
  · simp [readCity, heapWrite, lookupRef, c8Store, c8Heap, c8Rec]

/-- C8 (amended): the returned map is a shallow copy — a fresh container
holding the store's exact key-to-reference bindings, so container-level
changes to the copy never reach the store, but the per-city record objects
are shared: overwriting the record at an address reachable through the
returned map makes every subsequent store read of that city return the
new record. -/
theorem C8_shallow_copy (h : Heap) (m : RefMap) (city : String) (a : ℕ)
    (r2 : StoredReading)
    (hlook : lookupRef (get_all_readings m) city = some a) :
    get_all_readings m = m ∧
    readCity (heapWrite h a r2) m city = some r2 := by
  refine ⟨rfl, ?_⟩
  have hm : lookupRef m city = some a := hlook
  simp [readCity, hm, heapWrite]

/-- C8 witness: the amended theorem applied to the concrete one-city
store, mutating the shared Delhi record. -/
theorem C8_witness :
    get_all_readings c8Store = c8Store ∧
    readCity (heapWrite c8Heap 0 { c8Rec with aqi := 999 }) c8Store "Delhi"
      = some { c8Rec with aqi := 999 } :=
  C8_shallow_copy c8Heap c8Store "Delhi" 0 { c8Rec with aqi := 999 } rfl

end GreenStream
